import Mathlib

/-!
Verification development for the Nighttime Light Modeller
(`nighttimelight_modeller.py`, class `NighttimeLightModeller`).

The numeric core of `processAlgorithm` is embedded shallowly over `ℝ`:
- raster grids become flat row-major lists of reals (band 1 of each input),
- the NaN sentinel used for never-fitted metric cells becomes `Option ℝ`
  (`none` = NaN / undefined),
- the per-pixel calls into scikit-learn (`LinearRegression`, `Ridge`,
  `Lasso`, `PolynomialFeatures`, `MinMaxScaler`, `StandardScaler`,
  `model.score`) are embedded by their documented closed forms,
- the cooperative cancellation signal `feedback.isCanceled()` becomes a
  function `cancel : ℕ → Bool` of the loop iteration index: the loop body
  for pixel `idx` runs exactly when no iteration `j ≤ idx` saw the signal.
-/

namespace NTL

/-- Regression model choice, line 110: `['Linear','Polynomial','Ridge','Lasso']`. -/
inductive ModelName
  | linear
  | polynomial
  | ridge
  | lasso
deriving DecidableEq

/-- Normalization choice, line 111: `['None','MinMax','Z-score']`. -/
inductive NormName
  | noNorm
  | minMax
  | zscore
deriving DecidableEq

/-- One input raster as the algorithm sees it: the flattened band-1 grid,
the declared NoData value, and the acquisition year carried by the file
metadata.  `processAlgorithm` never reads the acquisition year: line 120
fabricates the time axis as `np.arange(2013, 2013 + len(paths))`. -/
structure Raster where
  grid : List ℝ
  nodata : Option ℝ
  acquisitionYear : ℤ

/-- Arithmetic mean of a list (`np.mean`; `sum/0 = 0` for the empty list). -/
noncomputable def mean (l : List ℝ) : ℝ := l.sum / l.length

/-- Minimum of a list, `np.min` style (0 for the empty list, never hit). -/
noncomputable def listMin : List ℝ → ℝ
  | [] => 0
  | x :: xs => xs.foldl min x

/-- Maximum of a list, `np.max` style. -/
noncomputable def listMax : List ℝ → ℝ
  | [] => 0
  | x :: xs => xs.foldl max x

/-- Population variance (`ddof = 0`), as `StandardScaler` computes `var_`. -/
noncomputable def popVariance (l : List ℝ) : ℝ :=
  mean (l.map (fun v => (v - mean l) ^ 2))

/-- scikit-learn `_handle_zeros_in_scale`: a zero scale divisor is replaced
by 1 so that constant features transform to 0 instead of dividing by zero. -/
noncomputable def handleZeroScale (s : ℝ) : ℝ := if s = 0 then 1 else s

/-- A fitted per-pixel scaler: the element-wise forward transform applied to
the training column and the inverse transform applied to predictions. -/
structure Scaler where
  forward : ℝ → ℝ
  inverse : ℝ → ℝ

/-- `MinMaxScaler().fit(y)` with the default feature range (0,1):
`transform x = (x - min) / range`, `inverse_transform z = z * range + min`,
where a zero range is replaced by 1 (`_handle_zeros_in_scale`). -/
noncomputable def minMaxScaler (y : List ℝ) : Scaler :=
  { forward := fun x => (x - listMin y) / handleZeroScale (listMax y - listMin y)
    inverse := fun z => z * handleZeroScale (listMax y - listMin y) + listMin y }

/-- `StandardScaler().fit(y)`: center by the mean, scale by
`_handle_zeros_in_scale(sqrt(population variance))`. -/
noncomputable def standardScaler (y : List ℝ) : Scaler :=
  { forward := fun x => (x - mean y) / handleZeroScale (Real.sqrt (popVariance y))
    inverse := fun z => z * handleZeroScale (Real.sqrt (popVariance y)) + mean y }

/-- Lines 146 to 154: pick and fit the scaler for one pixel series.  The
`None` branch sets `scaler = None`, which the later code (lines 163 and 165)
treats as the identity on predictions. -/
noncomputable def fitScaler : NormName → List ℝ → Scaler
  | NormName.noNorm, _ => { forward := fun x => x, inverse := fun z => z }
  | NormName.minMax, y => minMaxScaler y
  | NormName.zscore, y => standardScaler y

/-- Sum of squared deviations of `xs` from its mean (the centered Gram
entry used by every closed-form fit below). -/
noncomputable def sxx (xs : List ℝ) : ℝ :=
  (xs.map (fun x => (x - mean xs) ^ 2)).sum

/-- Sum of products of centered `xs` and centered `ys`. -/
noncomputable def sxy (xs ys : List ℝ) : ℝ :=
  (List.zipWith (fun x y => (x - mean xs) * (y - mean ys)) xs ys).sum

/-- Soft-thresholding operator, the closed-form building block of the
coordinate-descent solution of the one-feature Lasso. -/
noncomputable def softThreshold (z t : ℝ) : ℝ :=
  if t < z then z - t else if z < -t then z + t else 0

/-- Closed form of the degree-2 least-squares coefficients used by the
Polynomial branch: scikit-learn `LinearRegression` centers the feature
columns `[1, x, x^2]` and the target, then takes the minimum-norm
least-squares solution.  The centered bias column is zero and gets
coefficient 0; the remaining two coefficients solve the 2 by 2 normal
equations when the centered Gram matrix is invertible, and otherwise are
the rank-deficient pseudo-inverse solution `(G / trace(G)^2) * t`. -/
noncomputable def polyCoefs (xs ys : List ℝ) : ℝ × ℝ :=
  let xb := mean xs
  let wb := mean (xs.map (fun x => x ^ 2))
  let yb := mean ys
  let a := xs.map (fun x => x - xb)
  let b := xs.map (fun x => x ^ 2 - wb)
  let yc := ys.map (fun y => y - yb)
  let s11 := (a.map (fun v => v ^ 2)).sum
  let s22 := (b.map (fun v => v ^ 2)).sum
  let s12 := (List.zipWith (fun u v => u * v) a b).sum
  let t1 := (List.zipWith (fun u v => u * v) a yc).sum
  let t2 := (List.zipWith (fun u v => u * v) b yc).sum
  let det := s11 * s22 - s12 ^ 2
  if det = 0 then
    let tr := s11 + s22
    ((s11 * t1 + s12 * t2) / tr ^ 2, (s12 * t1 + s22 * t2) / tr ^ 2)
  else
    ((t1 * s22 - t2 * s12) / det, (t2 * s11 - t1 * s12) / det)

/-- Prediction function of the fitted Polynomial-branch model at a raw
year value `x` (features `[1, x, x^2]`, bias-column coefficient 0). -/
noncomputable def polyPredict (xs ys : List ℝ) (x : ℝ) : ℝ :=
  let c := polyCoefs xs ys
  let intercept := mean ys - (c.1 * mean xs + c.2 * mean (xs.map (fun v => v ^ 2)))
  intercept + c.1 * x + c.2 * x ^ 2

/-- Line 156 to 160, `mdl.fit(years_feat, y_norm)` in closed form, giving
the fitted prediction function on a raw year value:
- `Linear`: ordinary least squares with intercept, slope `sxy/sxx`
  (over `ℝ`, `sxy/0 = 0` agrees with the minimum-norm solution);
- `Ridge`: default `alpha = 1.0`, centered solve `(sxx + 1) s = sxy`;
- `Lasso`: default `alpha = 1.0`, slope `soft(sxy, n * 1) / sxx`;
- `Polynomial`: `LinearRegression` on the expanded features. -/
noncomputable def fitModel : ModelName → List ℝ → List ℝ → ℝ → ℝ
  | ModelName.linear, xs, ys => fun x =>
      sxy xs ys / sxx xs * x + (mean ys - sxy xs ys / sxx xs * mean xs)
  | ModelName.ridge, xs, ys => fun x =>
      sxy xs ys / (sxx xs + 1) * x + (mean ys - sxy xs ys / (sxx xs + 1) * mean xs)
  | ModelName.lasso, xs, ys => fun x =>
      softThreshold (sxy xs ys) (xs.length * 1) / sxx xs * x
        + (mean ys - softThreshold (sxy xs ys) (xs.length * 1) / sxx xs * mean xs)
  | ModelName.polynomial, xs, ys => polyPredict xs ys

/-- scikit-learn `r2_score(y_true, y_pred)` (what `mdl.score` returns):
`1 - ss_res / ss_tot`, with the zero-variance conventions (both sums zero
gives 1, zero denominator with nonzero residual gives 0). -/
noncomputable def r2Score (yTrue yPred : List ℝ) : ℝ :=
  let ssRes := (List.zipWith (fun a b => (a - b) ^ 2) yTrue yPred).sum
  let ssTot := (yTrue.map (fun a => (a - mean yTrue) ^ 2)).sum
  if ssTot = 0 then (if ssRes = 0 then 1 else 0) else 1 - ssRes / ssTot

/-- Fitted state of `PolynomialFeatures(degree=2)` on a one-column input:
the only data the fit records that transform later uses is the degree and
the input width, neither of which depends on the values fit on. -/
structure PolyBasis where
  degree : ℕ
deriving DecidableEq

/-- `PolynomialFeatures(degree=2).fit(col)` for a single input column. -/
def polyBasisFit (_col : List ℝ) : PolyBasis := { degree := 2 }

/-- `basis.transform(col)`: each scalar becomes the row of its powers
`[x^0, x^1, ..., x^degree]` (`include_bias=True` default, so the constant
column `x^0 = 1` comes first). -/
def polyBasisTransform (b : PolyBasis) (col : List ℝ) : List (List ℝ) :=
  col.map (fun x => (List.range (b.degree + 1)).map (fun j => x ^ j))

/-- Lines 133 to 138: the feature expansion of the observed-year column and
the future-year column.  For `Polynomial` the basis is fit on the observed
years and the future years are expanded by `transform` on that same basis;
for every other model both columns pass through unchanged (represented as
one-entry rows). -/
def expandFeatures (m : ModelName) (years future : List ℝ) :
    List (List ℝ) × List (List ℝ) :=
  match m with
  | ModelName.polynomial =>
      let b := polyBasisFit years
      (polyBasisTransform b years, polyBasisTransform b future)
  | _ => (years.map (fun x => [x]), future.map (fun x => [x]))

/-- Line 120: `years = np.arange(2013, 2013 + len(paths))` — the observed
time axis is always the consecutive integers starting at 2013. -/
def observedYears (n : ℕ) : List ℝ :=
  (List.range n).map (fun i : ℕ => 2013 + (i : ℝ))

/-- The pixel series `flat[:, idx]`: the value of every time step at one
flat (row-major) pixel index. -/
def pixelSeries (data : List (List ℝ)) (idx : ℕ) : List ℝ :=
  data.map (fun row => row.getD idx 0)

/-- Line 124: `valid_mask = ~np.any(data == nodata_val, axis=0)` when a
NoData value is configured on the first raster, else all-true.  A pixel is
valid when no time step at it equals the sentinel. -/
def validPixel : Option ℝ → List (List ℝ) → ℕ → Prop
  | none, _, _ => True
  | some nd, data, idx => ∀ row ∈ data, row.getD idx 0 ≠ nd

/-- The loop body for pixel `idx` runs exactly when the cancellation
signal (line 142, `if feedback.isCanceled(): break`) was false at the top
of every iteration `j ≤ idx`. -/
def processed (cancel : ℕ → Bool) (idx : ℕ) : Bool :=
  (List.range (idx + 1)).all (fun j => !cancel j)

/-- Lines 144 to 170, the loop body for one valid pixel: fit the scaler,
normalize, fit the model, reconstruct in-sample predictions and
inverse-normalize them, predict the future years and inverse-normalize,
record `mdl.score(years_feat, y_norm)` as R-squared and the root mean
squared residual of the inverse-normalized reconstruction against the raw
series as RMSE.  Returns (future predictions, r2, rmse). -/
noncomputable def runPixel (model : ModelName) (norm : NormName)
    (years futureYears y : List ℝ) : List ℝ × ℝ × ℝ :=
  let scaler := fitScaler norm y
  let yNorm := y.map scaler.forward
  let f := fitModel model years yNorm
  let yPredNorm := years.map f
  let yPred := yPredNorm.map scaler.inverse
  let predNorm := futureYears.map f
  let pred := predNorm.map scaler.inverse
  let r2 := r2Score yNorm yPredNorm
  let resid := List.zipWith (fun p a => p - a) yPred y
  let rmse := Real.sqrt (mean (resid.map (fun r => r ^ 2)))
  (pred, r2, rmse)

open Classical in
/-- The state of one pixel after the loop: the fitted triple when the loop
reached the pixel and the mask marks it valid, otherwise the initial
defaults of lines 128 to 130 (prediction 0 per future year, NaN metrics,
NaN rendered as `none`). -/
noncomputable def pixelCell (model : ModelName) (norm : NormName)
    (nodata : Option ℝ) (data : List (List ℝ)) (futureYears : List ℝ)
    (cancel : ℕ → Bool) (idx : ℕ) : List ℝ × Option ℝ × Option ℝ :=
  if processed cancel idx = true ∧ validPixel nodata data idx then
    let r := runPixel model norm (observedYears data.length) futureYears
      (pixelSeries data idx)
    (r.1, some r.2.1, some r.2.2)
  else
    (List.replicate futureYears.length 0, none, none)

/-- The grids `fit_and_forecast` produces: one prediction row per future
year (post-floor, original units) and the per-pixel metric grids. -/
structure ForecastOutputs where
  preds : List (List ℝ)
  r2 : List (Option ℝ)
  rmse : List (Option ℝ)

/-- Lines 120 to 175, the whole per-pixel loop plus the post-loop
non-negativity floor `preds = np.maximum(preds, 0)`: every prediction
entry is clamped from below by 0, including the never-fitted defaults. -/
noncomputable def fitAndForecast (model : ModelName) (norm : NormName)
    (nodata : Option ℝ) (data : List (List ℝ)) (futureYears : List ℝ)
    (cancel : ℕ → Bool) : ForecastOutputs :=
  let nPix := (data.head?.getD []).length
  { preds := (List.range futureYears.length).map (fun k =>
      (List.range nPix).map (fun idx =>
        max 0 ((pixelCell model norm nodata data futureYears cancel idx).1.getD k 0)))
    r2 := (List.range nPix).map (fun idx =>
      (pixelCell model norm nodata data futureYears cancel idx).2.1)
    rmse := (List.range nPix).map (fun idx =>
      (pixelCell model norm nodata data futureYears cancel idx).2.2) }

/-- Number of defined (non-NaN) entries of a metric grid. -/
def definedCount (l : List (Option ℝ)) : ℕ :=
  l.countP (fun o => o.isSome)

/-- Number of pixels the loop visited before the cancellation signal. -/
def visitedCount (cancel : ℕ → Bool) (n : ℕ) : ℕ :=
  (List.range n).countP (fun idx => processed cancel idx)

/-- The error the summarization step surfaces when no pixel was ever
fitted: with every metric NaN, `vr2 = r2_vals[~np.isnan(r2_vals)]` is
empty and the reduction `vr2.min()` on line 185 raises. -/
inductive SummaryError
  | emptyResult
deriving DecidableEq

/-- The corpus-wide statistics of lines 185 to 188. -/
structure SummaryStats where
  r2Mean : ℝ
  r2Min : ℝ
  r2Max : ℝ
  rmseMean : ℝ
  rmseMin : ℝ
  rmseMax : ℝ
  robustPct : ℝ

/-- Lines 183 to 188: filter the defined metric entries, then report
mean/min/max of both grids and the share of R-squared values at or above
0.7.  An empty defined set makes the min/max reduction raise; here that is
the `SummaryError.emptyResult` branch. -/
noncomputable def summarize (r2 rmse : List (Option ℝ)) :
    Except SummaryError SummaryStats :=
  let vr2 := r2.filterMap (fun o => o)
  let vrm := rmse.filterMap (fun o => o)
  if vr2 = [] then Except.error SummaryError.emptyResult
  else if vrm = [] then Except.error SummaryError.emptyResult
  else Except.ok
    { r2Mean := mean vr2
      r2Min := listMin vr2
      r2Max := listMax vr2
      rmseMean := mean vrm
      rmseMin := listMin vrm
      rmseMax := listMax vrm
      robustPct := 100 * (vr2.countP (fun v => decide (0.7 ≤ v)) : ℝ) / vr2.length }

/-- Lines 115 to 117: the NoData sentinel is read from the first input
raster only (`with rasterio.open(paths[0]) as src: nodata_val = src.nodata`). -/
def headNodata : List Raster → Option ℝ
  | [] => none
  | r :: _ => r.nodata

/-- Configuration failures raised before any per-pixel work. -/
inductive ConfigError
  | tooFewRasters
  | noFutureYears
deriving DecidableEq

/-- The raster-level entry point: the guard of lines 100 to 101 (at least
2 inputs), the guard of lines 106 to 107 (non-empty future years), then
the core loop on the stacked grids with the first raster sentinel. -/
noncomputable def loadAndForecast (rs : List Raster) (model : ModelName)
    (norm : NormName) (futureYears : List ℝ) (cancel : ℕ → Bool) :
    Except ConfigError ForecastOutputs :=
  if rs.length < 2 then Except.error ConfigError.tooFewRasters
  else if futureYears = [] then Except.error ConfigError.noFutureYears
  else Except.ok (fitAndForecast model norm (headNodata rs)
    (rs.map Raster.grid) futureYears cancel)

/-- Sample input raster: one pixel of value 1, no NoData declared. -/
noncomputable def sampleRasterA : Raster :=
  { grid := [1], nodata := none, acquisitionYear := 2013 }

/-- Sample input raster: one pixel of value 1, NoData declared as 1. -/
noncomputable def sampleRasterB : Raster :=
  { grid := [1], nodata := some 1, acquisitionYear := 2014 }

/-- Sample input raster: one pixel of value 1, no NoData declared. -/
noncomputable def sampleRasterC : Raster :=
  { grid := [1], nodata := none, acquisitionYear := 2020 }

/-- Sample input raster: one pixel of value 2, no NoData declared. -/
noncomputable def sampleRasterD : Raster :=
  { grid := [2], nodata := none, acquisitionYear := 2014 }

/-! ### Helper lemmas -/

theorem processed_const_false (idx : ℕ) : processed (fun _ => false) idx = true := by
  simp [processed]

theorem validPixel_none (data : List (List ℝ)) (idx : ℕ) :
    validPixel none data idx := by
  simp [validPixel]

theorem pixelCell_fitted (model : ModelName) (norm : NormName) (nodata : Option ℝ)
    (data : List (List ℝ)) (fy : List ℝ) (cancel : ℕ → Bool) (idx : ℕ)
    (h1 : processed cancel idx = true) (h2 : validPixel nodata data idx) :
    pixelCell model norm nodata data fy cancel idx =
      ((runPixel model norm (observedYears data.length) fy (pixelSeries data idx)).1,
       some (runPixel model norm (observedYears data.length) fy (pixelSeries data idx)).2.1,
       some (runPixel model norm (observedYears data.length) fy (pixelSeries data idx)).2.2) := by
  unfold pixelCell
  rw [if_pos ⟨h1, h2⟩]

theorem pixelCell_default (model : ModelName) (norm : NormName) (nodata : Option ℝ)
    (data : List (List ℝ)) (fy : List ℝ) (cancel : ℕ → Bool) (idx : ℕ)
    (h : ¬ (processed cancel idx = true ∧ validPixel nodata data idx)) :
    pixelCell model norm nodata data fy cancel idx =
      (List.replicate fy.length 0, none, none) := by
  unfold pixelCell
  rw [if_neg h]

theorem observedYears_two : observedYears 2 = [2013, 2014] := by
  norm_num [observedYears, show List.range 2 = [0, 1] from rfl]

theorem runPixel_scenarioA :
    runPixel ModelName.linear NormName.noNorm [2013, 2014] [2015] [1, 2] =
      ([3], 1, 0) := by
  norm_num [runPixel, fitScaler, fitModel, sxx, sxy, mean, r2Score]

theorem getD_map_range {α : Type} (f : ℕ → α) (n idx : ℕ) (d : α) (h : idx < n) :
    ((List.range n).map f).getD idx d = f idx := by
  rw [List.getD_eq_getElem?_getD, List.getElem?_eq_getElem (by simpa using h)]
  simp

theorem getD_long {α : Type} (l : List α) (idx : ℕ) (d : α) (h : l.length ≤ idx) :
    l.getD idx d = d := by
  rw [List.getD_eq_getElem?_getD, List.getElem?_eq_none h]
  rfl

theorem pixelCell_r2_isSome (model : ModelName) (norm : NormName) (nodata : Option ℝ)
    (data : List (List ℝ)) (fy : List ℝ) (cancel : ℕ → Bool) (idx : ℕ) :
    ((pixelCell model norm nodata data fy cancel idx).2.1).isSome = true ↔
      (processed cancel idx = true ∧ validPixel nodata data idx) := by
  by_cases h : processed cancel idx = true ∧ validPixel nodata data idx
  · rw [pixelCell_fitted _ _ _ _ _ _ _ h.1 h.2]
    simpa using h
  · rw [pixelCell_default _ _ _ _ _ _ _ h]
    simpa using h

theorem mem_preds_nonneg (model : ModelName) (norm : NormName) (nodata : Option ℝ)
    (data : List (List ℝ)) (fy : List ℝ) (cancel : ℕ → Bool) :
    ∀ row ∈ (fitAndForecast model norm nodata data fy cancel).preds,
      ∀ v ∈ row, 0 ≤ v := by
  intro row hrow v hv
  simp only [fitAndForecast, List.mem_map] at hrow
  obtain ⟨k, _, rfl⟩ := hrow
  simp only [List.mem_map] at hv
  obtain ⟨idx, _, rfl⟩ := hv
  exact le_max_left 0 _

theorem validPixel_iff (nodata : Option ℝ) (data : List (List ℝ)) (idx : ℕ) :
    validPixel nodata data idx ↔
      ∀ nd, nodata = some nd → nd ∉ pixelSeries data idx := by
  cases nodata with
  | none => simp [validPixel]
  | some nd =>
      simp only [validPixel, pixelSeries, List.mem_map, Option.some.injEq]
      constructor
      · rintro h nd2 rfl hmem
        obtain ⟨row, hrow, heq⟩ := hmem
        exact h row hrow heq
      · intro h row hrow heq
        exact h nd rfl ⟨row, hrow, heq⟩

theorem getD_nonneg (l : List ℝ) (idx : ℕ) (h : ∀ v ∈ l, 0 ≤ v) :
    0 ≤ l.getD idx 0 := by
  by_cases hlt : idx < l.length
  · rw [List.getD_eq_getElem?_getD, List.getElem?_eq_getElem hlt]
    exact h _ (List.getElem_mem hlt)
  · rw [getD_long l idx 0 (Nat.le_of_not_lt hlt)]

theorem cell_default_entries (model : ModelName) (norm : NormName) (nodata : Option ℝ)
    (data : List (List ℝ)) (fy : List ℝ) (cancel : ℕ → Bool) (idx : ℕ)
    (h : ¬ (processed cancel idx = true ∧ validPixel nodata data idx))
    (hidx : idx < (data.head?.getD []).length) :
    (fitAndForecast model norm nodata data fy cancel).r2.getD idx (some 0) = none ∧
    (fitAndForecast model norm nodata data fy cancel).rmse.getD idx (some 0) = none ∧
    ∀ k, ((fitAndForecast model norm nodata data fy cancel).preds.getD k []).getD idx 0 = 0 := by
  have hcell := pixelCell_default model norm nodata data fy cancel idx h
  refine ⟨?_, ?_, ?_⟩
  · simp only [fitAndForecast]
    rw [getD_map_range _ _ _ _ hidx, hcell]
  · simp only [fitAndForecast]
    rw [getD_map_range _ _ _ _ hidx, hcell]
  · intro k
    by_cases hk : k < fy.length
    · simp only [fitAndForecast]
      rw [getD_map_range _ _ _ _ hk, getD_map_range _ _ _ _ hidx, hcell]
      simp [List.getElem?_replicate, hk]
    · have h1 : (fitAndForecast model norm nodata data fy cancel).preds.getD k [] = [] := by
        apply getD_long
        simp only [fitAndForecast, List.length_map, List.length_range]
        omega
      rw [h1]
      rfl

/-! ### Claim theorems -/

/-- C2: a pixel is valid iff none of its time-step values equals the
NoData sentinel (and every pixel is valid when no sentinel is configured),
and an invalid pixel is never fitted: its entry in every future-year
prediction grid is the floored default 0 and its R-squared and RMSE
entries stay the NaN sentinel, rendered `none`. -/
theorem invalid_pixel_skipped_defaults :
    ∀ (model : ModelName) (norm : NormName) (nodata : Option ℝ)
      (data : List (List ℝ)) (fy : List ℝ) (cancel : ℕ → Bool) (idx : ℕ),
      (validPixel nodata data idx ↔
        ∀ nd, nodata = some nd → nd ∉ pixelSeries data idx) ∧
      (nodata = none → validPixel nodata data idx) ∧
      (¬ validPixel nodata data idx → idx < (data.head?.getD []).length →
        (fitAndForecast model norm nodata data fy cancel).r2.getD idx (some 0) = none ∧
        (fitAndForecast model norm nodata data fy cancel).rmse.getD idx (some 0) = none ∧
        ∀ k, ((fitAndForecast model norm nodata data fy cancel).preds.getD k []).getD idx 0 = 0) := by
  intro model norm nodata data fy cancel idx
  refine ⟨validPixel_iff nodata data idx, ?_, ?_⟩
  · intro h
    subst h
    exact validPixel_none data idx
  · intro hinv hidx
    exact cell_default_entries model norm nodata data fy cancel idx
      (fun hc => hinv hc.2) hidx

/-- C3: after the post-loop floor, every entry of every future-year
prediction grid is at least 0, whatever the input volume, sentinel, model
choice, normalization choice and cancellation signal (out-of-range indices
read the 0-defaults). -/
theorem predictions_nonneg_after_floor :
    ∀ (model : ModelName) (norm : NormName) (nodata : Option ℝ)
      (data : List (List ℝ)) (fy : List ℝ) (cancel : ℕ → Bool) (k idx : ℕ),
      0 ≤ ((fitAndForecast model norm nodata data fy cancel).preds.getD k []).getD idx 0 := by
  intro model norm nodata data fy cancel k idx
  apply getD_nonneg
  intro v hv
  by_cases hk : k < (fitAndForecast model norm nodata data fy cancel).preds.length
  · have hrow : (fitAndForecast model norm nodata data fy cancel).preds.getD k [] ∈
        (fitAndForecast model norm nodata data fy cancel).preds := by
      rw [List.getD_eq_getElem?_getD, List.getElem?_eq_getElem hk]
      exact List.getElem_mem hk
    exact mem_preds_nonneg model norm nodata data fy cancel _ hrow v hv
  · rw [getD_long _ _ _ (Nat.le_of_not_lt hk)] at hv
    simp at hv

/-- C8: the loop checks the cancellation signal between pixels, so the
visited pixels form a prefix of the row-major order; a pixel the loop
never reached keeps the default state (prediction 0 after the floor, NaN
metrics); the defined-pixel count is at most the visited count; and the
R-squared entry of a pixel is undefined exactly when the pixel is
unvisited or invalid. -/
theorem cancellation_prefix_safety :
    ∀ (model : ModelName) (norm : NormName) (nodata : Option ℝ)
      (data : List (List ℝ)) (fy : List ℝ) (cancel : ℕ → Bool) (idx : ℕ),
      (∀ j, j ≤ idx → processed cancel idx = true → processed cancel j = true) ∧
      (processed cancel idx = false → idx < (data.head?.getD []).length →
        (fitAndForecast model norm nodata data fy cancel).r2.getD idx (some 0) = none ∧
        (fitAndForecast model norm nodata data fy cancel).rmse.getD idx (some 0) = none ∧
        ∀ k, ((fitAndForecast model norm nodata data fy cancel).preds.getD k []).getD idx 0 = 0) ∧
      definedCount (fitAndForecast model norm nodata data fy cancel).r2 ≤
        visitedCount cancel ((data.head?.getD []).length) ∧
      (idx < (data.head?.getD []).length →
        ((fitAndForecast model norm nodata data fy cancel).r2.getD idx (some 0) = none ↔
          processed cancel idx = false ∨ ¬ validPixel nodata data idx)) := by
  intro model norm nodata data fy cancel idx
  refine ⟨?_, ?_, ?_, ?_⟩
  · intro j hj hp
    simp only [processed, List.all_eq_true, List.mem_range] at hp ⊢
    intro m hm
    exact hp m (by omega)
  · intro hp hidx
    exact cell_default_entries model norm nodata data fy cancel idx
      (fun hc => by rw [hp] at hc; exact Bool.false_ne_true hc.1) hidx
  · unfold definedCount visitedCount
    simp only [fitAndForecast]
    rw [List.countP_map]
    apply List.countP_mono_left
    intro x _ h
    exact ((pixelCell_r2_isSome model norm nodata data fy cancel x).1 h).1
  · intro hidx
    simp only [fitAndForecast]
    rw [getD_map_range _ _ _ _ hidx]
    by_cases h : processed cancel idx = true ∧ validPixel nodata data idx
    · rw [pixelCell_fitted _ _ _ _ _ _ _ h.1 h.2]
      simp [h.1, h.2]
    · rw [pixelCell_default _ _ _ _ _ _ _ h]
      simp only [true_iff]
      by_cases hp : processed cancel idx = true
      · exact Or.inr (fun hv => h ⟨hp, hv⟩)
      · exact Or.inl (by simpa using hp)

/-- C1: with 2 input grids of 4 pixels each, all pixels 1 in the first
grid and 2 in the second, no NoData, Linear model, no normalization and
future year 2015, every pixel of the prediction grid is 3 and every pixel
of the R-squared grid is defined and equal to 1. -/
theorem scenarioA_linear_exact :
    (fitAndForecast ModelName.linear NormName.noNorm none
        [[1, 1, 1, 1], [2, 2, 2, 2]] [2015] (fun _ => false)).preds = [[3, 3, 3, 3]] ∧
    (fitAndForecast ModelName.linear NormName.noNorm none
        [[1, 1, 1, 1], [2, 2, 2, 2]] [2015] (fun _ => false)).r2 =
      [some 1, some 1, some 1, some 1] := by
  have hser : ∀ idx : ℕ, idx < 4 →
      pixelSeries [[(1:ℝ), 1, 1, 1], [2, 2, 2, 2]] idx = [1, 2] := by
    intro idx h
    interval_cases idx <;> rfl
  have hcell : ∀ idx : ℕ, idx < 4 →
      pixelCell ModelName.linear NormName.noNorm none
        [[(1:ℝ), 1, 1, 1], [2, 2, 2, 2]] [2015] (fun _ => false) idx =
        ([3], some 1, some 0) := by
    intro idx h
    rw [pixelCell_fitted _ _ _ _ _ _ _ (processed_const_false idx)
      (validPixel_none _ _), hser idx h]
    norm_num [observedYears_two, runPixel_scenarioA]
  have hmax : max (0 : ℝ) 3 = 3 := by norm_num
  constructor
  · show (fitAndForecast _ _ _ _ _ _).preds = _
    simp only [fitAndForecast]
    norm_num [show List.range 1 = [0] from rfl, show List.range 4 = [0, 1, 2, 3] from rfl,
      hcell 0 (by norm_num), hcell 1 (by norm_num), hcell 2 (by norm_num),
      hcell 3 (by norm_num), hmax]
  · show (fitAndForecast _ _ _ _ _ _).r2 = _
    simp only [fitAndForecast]
    norm_num [show List.range 4 = [0, 1, 2, 3] from rfl,
      hcell 0 (by norm_num), hcell 1 (by norm_num), hcell 2 (by norm_num),
      hcell 3 (by norm_num)]

/-- C4: for a series that is non-degenerate for the chosen normalization
kind (non-zero range for MinMax, non-zero standard deviation for
Z-score), the fitted scaler's inverse transform inverts its forward
transform on every value the scaler was fit on; with no normalization the
round trip is the identity outright. -/
theorem normalizer_roundtrip :
    (∀ (y : List ℝ) (x : ℝ), x ∈ y →
      (fitScaler NormName.noNorm y).inverse ((fitScaler NormName.noNorm y).forward x) = x) ∧
    (∀ (y : List ℝ) (x : ℝ), x ∈ y → listMax y - listMin y ≠ 0 →
      (fitScaler NormName.minMax y).inverse ((fitScaler NormName.minMax y).forward x) = x) ∧
    (∀ (y : List ℝ) (x : ℝ), x ∈ y → Real.sqrt (popVariance y) ≠ 0 →
      (fitScaler NormName.zscore y).inverse ((fitScaler NormName.zscore y).forward x) = x) := by
  refine ⟨fun y x _ => rfl, ?_, ?_⟩
  · intro y x _ h
    simp only [fitScaler, minMaxScaler, handleZeroScale, if_neg h]
    field_simp
  · intro y x _ h
    simp only [fitScaler, standardScaler, handleZeroScale, if_neg h]
    field_simp

/-- C5: for every fitted pixel, the recorded R-squared is the coefficient
of determination of the fitted model on the normalized training values —
computed in normalized space — while the recorded RMSE is the root mean
square of the gap between the inverse-normalized in-sample reconstruction
and the raw observed series — computed in original units. -/
theorem metrics_normalized_vs_original :
    ∀ (model : ModelName) (norm : NormName) (nodata : Option ℝ)
      (data : List (List ℝ)) (fy : List ℝ) (cancel : ℕ → Bool) (idx : ℕ),
      processed cancel idx = true → validPixel nodata data idx →
      idx < (data.head?.getD []).length →
      (fitAndForecast model norm nodata data fy cancel).r2.getD idx (some 0) =
        some (r2Score
          ((pixelSeries data idx).map (fitScaler norm (pixelSeries data idx)).forward)
          ((observedYears data.length).map
            (fitModel model (observedYears data.length)
              ((pixelSeries data idx).map (fitScaler norm (pixelSeries data idx)).forward)))) ∧
      (fitAndForecast model norm nodata data fy cancel).rmse.getD idx (some 0) =
        some (Real.sqrt (mean ((List.zipWith (fun p a => p - a)
          (((observedYears data.length).map
            (fitModel model (observedYears data.length)
              ((pixelSeries data idx).map (fitScaler norm (pixelSeries data idx)).forward))).map
            (fitScaler norm (pixelSeries data idx)).inverse)
          (pixelSeries data idx)).map (fun r => r ^ 2)))) := by
  intro model norm nodata data fy cancel idx h1 h2 hidx
  constructor
  · simp only [fitAndForecast]
    rw [getD_map_range _ _ _ _ hidx, pixelCell_fitted _ _ _ _ _ _ _ h1 h2]
    simp [runPixel]
  · simp only [fitAndForecast]
    rw [getD_map_range _ _ _ _ hidx, pixelCell_fitted _ _ _ _ _ _ _ h1 h2]
    simp [runPixel]

/-- C6 counterexample: at time index 2013 the Polynomial expansion does
not produce the two-entry row `[x, x^2]` the claim describes — the fitted
degree-2 basis also emits the leading constant bias column. -/
theorem poly_expansion_bias_counterexample :
    (expandFeatures ModelName.polynomial [2013] [2015]).1 ≠ [[2013, 2013 ^ 2]] := by
  have h3 : (expandFeatures ModelName.polynomial [2013] [2015]).1 =
      [[1, 2013, 2013 ^ 2]] := by
    norm_num [expandFeatures, polyBasisFit, polyBasisTransform,
      show List.range 3 = [0, 1, 2] from rfl]
  rw [h3]
  intro h
  norm_num at h

/-- C6 amended: for Linear, Ridge and Lasso the expansion leaves both year
columns unchanged (one-entry rows); for the Polynomial kind each time
index x expands to the row `[1, x, x^2]` — a constant bias column, the
index, then its square — and the expansion basis fit on the observed
years is data-independent, so the future years are expanded by transform
with that same basis, never refit. -/
theorem feature_expansion_amended :
    ∀ (years future : List ℝ),
      expandFeatures ModelName.linear years future =
        (years.map (fun x => [x]), future.map (fun x => [x])) ∧
      expandFeatures ModelName.ridge years future =
        (years.map (fun x => [x]), future.map (fun x => [x])) ∧
      expandFeatures ModelName.lasso years future =
        (years.map (fun x => [x]), future.map (fun x => [x])) ∧
      expandFeatures ModelName.polynomial years future =
        (years.map (fun x => [1, x, x ^ 2]), future.map (fun x => [1, x, x ^ 2])) ∧
      polyBasisFit years = polyBasisFit future := by
  intro years future
  refine ⟨rfl, rfl, rfl, ?_, rfl⟩
  simp [expandFeatures, polyBasisFit, polyBasisTransform,
    show List.range 3 = [0, 1, 2] from rfl]

/-- C7: when the completed metric grids contain zero defined (non-NaN)
entries — no pixel was ever fitted — summarization surfaces the
empty-result error instead of returning statistics. -/
theorem summarize_empty_error :
    ∀ (r2 rmse : List (Option ℝ)),
      definedCount r2 = 0 → definedCount rmse = 0 →
      summarize r2 rmse = Except.error SummaryError.emptyResult := by
  intro r2 rmse h1 _
  have hlen : (r2.filterMap (fun o => o)).length = 0 := by
    rw [List.length_filterMap_eq_countP]
    exact h1
  have hnil : r2.filterMap (fun o => o) = [] :=
    List.eq_nil_of_length_eq_zero hlen
  simp [summarize, hnil]

/-- C9: the NoData sentinel is taken only from the first input raster:
pixel validity is exactly avoidance of the first sentinel in the pixel
series, every pixel is valid when the first raster declares none, and two
input lists with the same grids and the same first sentinel forecast
identically, whatever NoData values the later rasters declare. -/
theorem nodata_from_first_raster_only :
    ∀ (rs rs2 : List Raster) (idx : ℕ),
      (validPixel (headNodata rs) (rs.map Raster.grid) idx ↔
        ∀ nd, headNodata rs = some nd →
          nd ∉ pixelSeries (rs.map Raster.grid) idx) ∧
      (headNodata rs = none →
        validPixel (headNodata rs) (rs.map Raster.grid) idx) ∧
      (rs.map Raster.grid = rs2.map Raster.grid →
        headNodata rs = headNodata rs2 →
        ∀ (model : ModelName) (norm : NormName) (fy : List ℝ) (cancel : ℕ → Bool),
          loadAndForecast rs model norm fy cancel =
            loadAndForecast rs2 model norm fy cancel) := by
  intro rs rs2 idx
  refine ⟨validPixel_iff _ _ _, ?_, ?_⟩
  · intro h
    rw [h]
    exact validPixel_none _ _
  · intro hgrid hnod model norm fy cancel
    have hlen : rs.length = rs2.length := by
      have h := congrArg List.length hgrid
      simpa using h
    simp only [loadAndForecast, hlen, hnod, hgrid]

/-- C10: the observed time axis used for fitting is always the consecutive
integers 2013, 2014, ... assigned to the inputs in supply order — its
length is the input count and its i-th entry is 2013 + i — and the
acquisition year in the raster metadata is never read: rewriting every
acquisition year arbitrarily leaves the forecast unchanged. -/
theorem fixed_2013_year_axis :
    ∀ (rs : List Raster) (f : Raster → ℤ) (model : ModelName) (norm : NormName)
      (fy : List ℝ) (cancel : ℕ → Bool),
      (observedYears rs.length).length = rs.length ∧
      (∀ i, i < rs.length → (observedYears rs.length).getD i 0 = 2013 + (i : ℝ)) ∧
      loadAndForecast (rs.map (fun r =>
          { grid := r.grid, nodata := r.nodata, acquisitionYear := f r })) model norm
          fy cancel =
        loadAndForecast rs model norm fy cancel := by
  intro rs f model norm fy cancel
  refine ⟨by rw [observedYears, List.length_map, List.length_range], ?_, ?_⟩
  · intro i hi
    rw [observedYears, getD_map_range _ _ _ _ hi]
  · have hgrid : (rs.map (fun r =>
        ({ grid := r.grid, nodata := r.nodata, acquisitionYear := f r } : Raster))).map
          Raster.grid = rs.map Raster.grid := by
      simp [List.map_map]
    have hnod : headNodata (rs.map (fun r =>
        ({ grid := r.grid, nodata := r.nodata, acquisitionYear := f r } : Raster))) =
          headNodata rs := by
      cases rs <;> rfl
    have hlen : (rs.map (fun r =>
        ({ grid := r.grid, nodata := r.nodata, acquisitionYear := f r } : Raster))).length =
          rs.length := by
      simp
    simp only [loadAndForecast, hgrid, hnod, hlen]

/-! ### Witnesses -/

theorem invalid_pixel_skipped_defaults_witness :
    ¬ validPixel (some 5) [[(5 : ℝ)], [2]] 0 ∧
    (fitAndForecast ModelName.linear NormName.noNorm (some 5) [[(5 : ℝ)], [2]] [2015]
      (fun _ => false)).r2.getD 0 (some 0) = none ∧
    (fitAndForecast ModelName.linear NormName.noNorm (some 5) [[(5 : ℝ)], [2]] [2015]
      (fun _ => false)).rmse.getD 0 (some 0) = none ∧
    ((fitAndForecast ModelName.linear NormName.noNorm (some 5) [[(5 : ℝ)], [2]] [2015]
      (fun _ => false)).preds.getD 0 []).getD 0 0 = 0 := by
  have hinv : ¬ validPixel (some 5) [[(5 : ℝ)], [2]] 0 := by
    intro h
    exact h [5] (by simp) rfl
  have h := (invalid_pixel_skipped_defaults ModelName.linear NormName.noNorm (some 5)
    [[(5 : ℝ)], [2]] [2015] (fun _ => false) 0).2.2 hinv (by simp)
  exact ⟨hinv, h.1, h.2.1, h.2.2 0⟩

theorem normalizer_roundtrip_witness :
    (1 : ℝ) ∈ [(1 : ℝ), 3] ∧ listMax [(1 : ℝ), 3] - listMin [(1 : ℝ), 3] ≠ 0 ∧
    (fitScaler NormName.minMax [(1 : ℝ), 3]).inverse
      ((fitScaler NormName.minMax [(1 : ℝ), 3]).forward 1) = 1 ∧
    (0 : ℝ) ∈ [(0 : ℝ), 2] ∧ Real.sqrt (popVariance [(0 : ℝ), 2]) ≠ 0 ∧
    (fitScaler NormName.zscore [(0 : ℝ), 2]).inverse
      ((fitScaler NormName.zscore [(0 : ℝ), 2]).forward 0) = 0 ∧
    (fitScaler NormName.noNorm [(1 : ℝ), 3]).inverse
      ((fitScaler NormName.noNorm [(1 : ℝ), 3]).forward 1) = 1 := by
  have hmem1 : (1 : ℝ) ∈ [(1 : ℝ), 3] := by simp
  have hmem0 : (0 : ℝ) ∈ [(0 : ℝ), 2] := by simp
  have hr : listMax [(1 : ℝ), 3] - listMin [(1 : ℝ), 3] ≠ 0 := by
    norm_num [listMax, listMin, max_def, min_def]
  have hvar : popVariance [(0 : ℝ), 2] = 1 := by
    norm_num [popVariance, mean]
  have hs : Real.sqrt (popVariance [(0 : ℝ), 2]) ≠ 0 := by
    rw [hvar, Real.sqrt_one]
    norm_num
  exact ⟨hmem1, hr, normalizer_roundtrip.2.1 _ _ hmem1 hr, hmem0, hs,
    normalizer_roundtrip.2.2 _ _ hmem0 hs, normalizer_roundtrip.1 _ _ hmem1⟩

theorem metrics_normalized_vs_original_witness :
    processed (fun _ => false) 0 = true ∧
    validPixel none [[(1 : ℝ)], [2]] 0 ∧
    (fitAndForecast ModelName.linear NormName.noNorm none [[(1 : ℝ)], [2]] [2015]
      (fun _ => false)).r2.getD 0 (some 0) =
      some (r2Score
        ((pixelSeries [[(1 : ℝ)], [2]] 0).map
          (fitScaler NormName.noNorm (pixelSeries [[(1 : ℝ)], [2]] 0)).forward)
        ((observedYears ([[(1 : ℝ)], [2]] : List (List ℝ)).length).map
          (fitModel ModelName.linear (observedYears ([[(1 : ℝ)], [2]] : List (List ℝ)).length)
            ((pixelSeries [[(1 : ℝ)], [2]] 0).map
              (fitScaler NormName.noNorm (pixelSeries [[(1 : ℝ)], [2]] 0)).forward)))) ∧
    (fitAndForecast ModelName.linear NormName.noNorm none [[(1 : ℝ)], [2]] [2015]
      (fun _ => false)).rmse.getD 0 (some 0) =
      some (Real.sqrt (mean ((List.zipWith (fun p a => p - a)
        (((observedYears ([[(1 : ℝ)], [2]] : List (List ℝ)).length).map
          (fitModel ModelName.linear (observedYears ([[(1 : ℝ)], [2]] : List (List ℝ)).length)
            ((pixelSeries [[(1 : ℝ)], [2]] 0).map
              (fitScaler NormName.noNorm (pixelSeries [[(1 : ℝ)], [2]] 0)).forward))).map
          (fitScaler NormName.noNorm (pixelSeries [[(1 : ℝ)], [2]] 0)).inverse)
        (pixelSeries [[(1 : ℝ)], [2]] 0)).map (fun r => r ^ 2)))) := by
  have hp : processed (fun _ => false) 0 = true := rfl
  have hv : validPixel none [[(1 : ℝ)], [2]] 0 := validPixel_none _ _
  have h := metrics_normalized_vs_original ModelName.linear NormName.noNorm none
    [[(1 : ℝ)], [2]] [2015] (fun _ => false) 0 hp hv (by simp)
  exact ⟨hp, hv, h.1, h.2⟩

theorem summarize_empty_error_witness :
    definedCount ([none, none] : List (Option ℝ)) = 0 ∧
    definedCount ([none] : List (Option ℝ)) = 0 ∧
    summarize [none, none] [none] = Except.error SummaryError.emptyResult := by
  have h1 : definedCount ([none, none] : List (Option ℝ)) = 0 := rfl
  have h2 : definedCount ([none] : List (Option ℝ)) = 0 := rfl
  exact ⟨h1, h2, summarize_empty_error _ _ h1 h2⟩

theorem cancellation_prefix_safety_witness :
    processed (fun j => decide (0 < j)) 1 = false ∧
    (fitAndForecast ModelName.linear NormName.noNorm none [[(1 : ℝ), 1], [2, 2]] [2015]
      (fun j => decide (0 < j))).r2.getD 1 (some 0) = none ∧
    (fitAndForecast ModelName.linear NormName.noNorm none [[(1 : ℝ), 1], [2, 2]] [2015]
      (fun j => decide (0 < j))).rmse.getD 1 (some 0) = none ∧
    ((fitAndForecast ModelName.linear NormName.noNorm none [[(1 : ℝ), 1], [2, 2]] [2015]
      (fun j => decide (0 < j))).preds.getD 0 []).getD 1 0 = 0 ∧
    definedCount (fitAndForecast ModelName.linear NormName.noNorm none
      [[(1 : ℝ), 1], [2, 2]] [2015] (fun j => decide (0 < j))).r2 ≤
      visitedCount (fun j => decide (0 < j))
        ((([[(1 : ℝ), 1], [2, 2]] : List (List ℝ)).head?.getD []).length) := by
  have hp : processed (fun j => decide (0 < j)) 1 = false := rfl
  have h := cancellation_prefix_safety ModelName.linear NormName.noNorm none
    [[(1 : ℝ), 1], [2, 2]] [2015] (fun j => decide (0 < j)) 1
  have hd := h.2.1 hp (by simp)
  exact ⟨hp, hd.1, hd.2.1, hd.2.2 0, h.2.2.1⟩

theorem predictions_nonneg_after_floor_witness :
    0 ≤ ((fitAndForecast ModelName.linear NormName.noNorm none [[(3 : ℝ)], [1]] [2015]
      (fun _ => false)).preds.getD 0 []).getD 0 0 :=
  predictions_nonneg_after_floor ModelName.linear NormName.noNorm none [[(3 : ℝ)], [1]]
    [2015] (fun _ => false) 0 0

theorem feature_expansion_amended_witness :
    expandFeatures ModelName.polynomial [(2013 : ℝ), 2014] [2015] =
      ([(2013 : ℝ), 2014].map (fun x => [1, x, x ^ 2]),
       [(2015 : ℝ)].map (fun x => [1, x, x ^ 2])) ∧
    expandFeatures ModelName.linear [(2013 : ℝ), 2014] [2015] =
      ([(2013 : ℝ), 2014].map (fun x => [x]), [(2015 : ℝ)].map (fun x => [x])) := by
  have h := feature_expansion_amended [(2013 : ℝ), 2014] [2015]
  exact ⟨h.2.2.2.1, h.1⟩

theorem nodata_from_first_raster_only_witness :
    headNodata [sampleRasterA, sampleRasterB] = none ∧
    validPixel (headNodata [sampleRasterA, sampleRasterB])
      ([sampleRasterA, sampleRasterB].map Raster.grid) 0 ∧
    loadAndForecast [sampleRasterA, sampleRasterB]
      ModelName.linear NormName.noNorm [2015] (fun _ => false) =
    loadAndForecast [sampleRasterA, sampleRasterC]
      ModelName.linear NormName.noNorm [2015] (fun _ => false) := by
  have h := nodata_from_first_raster_only [sampleRasterA, sampleRasterB]
    [sampleRasterA, sampleRasterC] 0
  exact ⟨rfl, h.2.1 rfl, h.2.2 rfl rfl ModelName.linear NormName.noNorm [2015]
    (fun _ => false)⟩

theorem fixed_2013_year_axis_witness :
    (1 : ℕ) < [sampleRasterA, sampleRasterD].length ∧
    (observedYears [sampleRasterA, sampleRasterD].length).getD 1 0 =
      2013 + ((1 : ℕ) : ℝ) ∧
    loadAndForecast ([sampleRasterA, sampleRasterD].map (fun r =>
        { grid := r.grid, nodata := r.nodata, acquisitionYear := (fun _ => (0 : ℤ)) r }))
      ModelName.linear NormName.noNorm [2015] (fun _ => false) =
    loadAndForecast [sampleRasterA, sampleRasterD]
      ModelName.linear NormName.noNorm [2015] (fun _ => false) := by
  have h := fixed_2013_year_axis [sampleRasterA, sampleRasterD]
    (fun _ => (0 : ℤ)) ModelName.linear NormName.noNorm [2015] (fun _ => false)
  exact ⟨by norm_num, h.2.1 1 (by norm_num), h.2.2⟩

end NTL
